import Mathlib

/-!
Shallow embedding of the ESP32 BLE GATT wrapper classes
`BLEDescriptor` (src/cpp_utils/BLEDescriptor.cpp) and
`BLEService` (src/cpp_utils/BLEService.cpp).

Machine integers (uint16_t handles, size_t lengths) carry no arithmetic in
this code, only equality and ordering comparisons, so they are embedded as
`Nat`.  Pointers to `BLECharacteristic` / `BLEService` objects are embedded
as numeric identities (`CharId`, `ServiceId`) resolved through an explicit
world (`GattWorld`); dereferencing an identity the world does not know is a
failure, so event handlers that dereference return `Option`.  Logging is a
no-op.  Calls back into the vendor stack (`esp_ble_gatts_send_response`,
`esp_ble_gatts_create_service`, characteristic `setHandle`) are recorded as
emitted actions in the handler results.
-/

/-- The ESP-IDF constant `ESP_GATT_MAX_ATTR_LEN` (maximum attribute value
length), from the vendor header (not part of the excerpt): 600. -/
def ESP_GATT_MAX_ATTR_LEN : Nat := 600

/-- The ESP-IDF status code `ESP_GATT_OK`. -/
def ESP_GATT_OK : Nat := 0

/-- The ESP-IDF constant `ESP_GATT_AUTH_REQ_NONE` (no authentication
requirement on a response). -/
def ESP_GATT_AUTH_REQ_NONE : Nat := 0

/-- Modelled from the spec: `BLEUUID` (not part of the excerpt) is an
identifier compared by equality (`BLEUUID::equals`). -/
abbrev UUID := Nat

/-- Pointer identity of a `BLECharacteristic` object. -/
abbrev CharId := Nat

/-- Pointer identity of a `BLEService` object. -/
abbrev ServiceId := Nat

/-- The `esp_attr_value_t` struct held in `BLEDescriptor::m_value`: a byte
buffer, the current value length, and the buffer capacity. -/
structure AttrValue where
  attr_value : List Nat
  attr_len : Nat
  attr_max_len : Nat
deriving DecidableEq

/-- The fields of `BLEDescriptor` (BLEDescriptor.h / BLEDescriptor.cpp). -/
structure BLEDescriptor where
  m_bleUUID : UUID
  m_value : AttrValue
  m_handle : Nat
  m_pCharacteristic : Option CharId
deriving DecidableEq

/-- The fields of `BLEService` (BLEService.cpp).  `m_serializeMutex` is
embedded as the Boolean `mutexHeld`; the `BLECharacteristicMap` container is
embedded as two association lists (keyed by UUID and by handle). -/
structure BLEService where
  m_uuid : UUID
  m_handle : Nat
  m_gatts_if : Nat
  m_srvc_id_inst : Nat
  m_srvc_id_uuid : UUID
  charMapByUUID : List (UUID × CharId)
  charMapByHandle : List (Nat × CharId)
  m_lastCreatedCharacteristic : Option CharId
  mutexHeld : Bool
deriving DecidableEq

/-- Modelled from the spec: `BLECharacteristic` (its source is not part of
the excerpt) is identified by a UUID and holds a non-owning back-reference
to its service, returned by `getService()`. -/
structure BLECharacteristic where
  m_uuid : UUID
  m_pService : ServiceId
deriving DecidableEq

/-- The object graph against which pointer identities are resolved. -/
structure GattWorld where
  chars : CharId → Option BLECharacteristic
  services : ServiceId → Option BLEService

/-- The GATT server callback events used by the two wrappers, with the
fields each `esp_ble_gatts_cb_param_t` union member carries. -/
inductive GattsEvent where
  | addCharDescr (status attr_handle service_handle : Nat) (char_uuid : UUID)
  | addChar (status attr_handle service_handle : Nat) (char_uuid : UUID)
  | createEvt (status service_handle : Nat) (service_uuid : UUID)
  | write (conn_id trans_id handle offset : Nat) (need_rsp is_prep : Bool) (value : List Nat)
  | read (conn_id trans_id handle offset : Nat) (is_long need_rsp : Bool)
  | other
deriving DecidableEq

/-- The `esp_gatt_rsp_t.attr_value` container built for a response. -/
structure GattRsp where
  len : Nat
  handle : Nat
  offset : Nat
  auth_req : Nat
  value : List Nat
deriving DecidableEq

/-- One call to `esp_ble_gatts_send_response` with its arguments. -/
structure SendResponse where
  gatts_if : Nat
  conn_id : Nat
  trans_id : Nat
  status : Nat
  rsp : GattRsp
deriving DecidableEq

/-- `BLEDescriptor::BLEDescriptor(uuid)`: empty value (the malloc'd buffer
is embedded as a zero-filled buffer of the fixed capacity, its contents
being irrelevant while `attr_len = 0`), handle 0, no owning characteristic. -/
def BLEDescriptor.mkDescriptor (uuid : UUID) : BLEDescriptor :=
  ⟨uuid, ⟨List.replicate ESP_GATT_MAX_ATTR_LEN 0, 0, ESP_GATT_MAX_ATTR_LEN⟩, 0, none⟩

/-- `BLEDescriptor::getUUID`. -/
def BLEDescriptor.getUUID (d : BLEDescriptor) : UUID := d.m_bleUUID

/-- `BLEDescriptor::setValue(data, length)`: if the length exceeds
`ESP_GATT_MAX_ATTR_LEN`, log and return without mutation; otherwise record
the new length and `memcpy` the bytes over the front of the buffer. -/
def BLEDescriptor.setValue (d : BLEDescriptor) (data : List Nat) : BLEDescriptor :=
  if data.length > ESP_GATT_MAX_ATTR_LEN then d
  else { d with m_value :=
    ⟨data ++ d.m_value.attr_value.drop data.length, data.length, d.m_value.attr_max_len⟩ }

/-- `BLEDescriptor::getValue`: the internal buffer. -/
def BLEDescriptor.getValue (d : BLEDescriptor) : List Nat := d.m_value.attr_value

/-- `BLEDescriptor::getLength`. -/
def BLEDescriptor.getLength (d : BLEDescriptor) : Nat := d.m_value.attr_len

/-- `BLEDescriptor::setHandle`. -/
def BLEDescriptor.setHandle (d : BLEDescriptor) (h : Nat) : BLEDescriptor :=
  { d with m_handle := h }

/-- `BLEDescriptor::getHandle`. -/
def BLEDescriptor.getHandle (d : BLEDescriptor) : Nat := d.m_handle

/-- Result of delivering one event to a descriptor: the new descriptor state
and the `esp_ble_gatts_send_response` calls issued (in order). -/
structure DescriptorEventOutcome where
  descr : BLEDescriptor
  sends : List SendResponse
deriving DecidableEq

/-- `BLEDescriptor::handleGATTServerEvent` (BLEDescriptor.cpp lines
125-221).  `stack` gives the return code the vendor stack produces for each
`esp_ble_gatts_send_response` call; the code checks it only to log, so it
never influences the outcome.  `none` means a null/dangling pointer was
dereferenced; the `&&` guard of the descriptor-added case short-circuits, so
the owning characteristic is dereferenced only after the null test and the
UUID comparison both pass. -/
def BLEDescriptor.handleGATTServerEvent (w : GattWorld) (gatts_if : Nat)
    (stack : SendResponse → Nat) (d : BLEDescriptor) (ev : GattsEvent) :
    Option DescriptorEventOutcome :=
  match ev with
  | .addCharDescr _status attr_handle service_handle char_uuid =>
    match d.m_pCharacteristic with
    | none => some ⟨d, []⟩
    | some cid =>
      if d.m_bleUUID = char_uuid then
        match w.chars cid with
        | none => none
        | some ch =>
          match w.services ch.m_pService with
          | none => none
          | some sv =>
            if sv.m_handle = service_handle then
              if sv.m_lastCreatedCharacteristic = some cid then
                some ⟨d.setHandle attr_handle, []⟩
              else some ⟨d, []⟩
            else some ⟨d, []⟩
      else some ⟨d, []⟩
  | .write conn_id trans_id handle _offset _need_rsp _is_prep value =>
    if handle = d.m_handle then
      let d2 := d.setValue value
      let rsp : GattRsp :=
        ⟨d2.getLength, d.m_handle, 0, ESP_GATT_AUTH_REQ_NONE, d2.getValue.take d2.getLength⟩
      let call : SendResponse := ⟨gatts_if, conn_id, trans_id, ESP_GATT_OK, rsp⟩
      let _errRc := stack call
      some ⟨d2, [call]⟩
    else some ⟨d, []⟩
  | .read conn_id trans_id handle _offset _is_long need_rsp =>
    if handle = d.m_handle then
      if need_rsp then
        let rsp : GattRsp :=
          ⟨d.getLength, handle, 0, ESP_GATT_AUTH_REQ_NONE, d.getValue.take d.getLength⟩
        let call : SendResponse := ⟨gatts_if, conn_id, trans_id, ESP_GATT_OK, rsp⟩
        let _errRc := stack call
        some ⟨d, [call]⟩
      else some ⟨d, []⟩
    else some ⟨d, []⟩
  | _ => some ⟨d, []⟩

/-- Deliver a sequence of events to a descriptor, threading the state; a
null/dangling dereference anywhere aborts with `none`. -/
def BLEDescriptor.runEvents (w : GattWorld) (gatts_if : Nat)
    (stack : SendResponse → Nat) (d : BLEDescriptor) (evs : List GattsEvent) :
    Option BLEDescriptor :=
  evs.foldl (fun od ev => od.bind fun d0 =>
    (BLEDescriptor.handleGATTServerEvent w gatts_if stack d0 ev).map
      DescriptorEventOutcome.descr) (some d)

/-- Modelled from the spec: `BLECharacteristicMap::getByUUID` (its source
is not part of the excerpt): lookup in the UUID-keyed collection. -/
def BLECharacteristicMap.getByUUID : List (Nat × Nat) → Nat → Option Nat
  | [], _ => none
  | (k, v) :: rest, u => if k = u then some v else BLECharacteristicMap.getByUUID rest u

/-- Modelled from the spec: `BLECharacteristicMap::setByUUID`: keyed-map
update (replace the entry for the key, or append a new one). -/
def BLECharacteristicMap.setByUUID : List (Nat × Nat) → Nat → Nat → List (Nat × Nat)
  | [], u, c => [(u, c)]
  | (k, v) :: rest, u, c =>
    if k = u then (k, c) :: rest else (k, v) :: BLECharacteristicMap.setByUUID rest u c

/-- Modelled from the spec: `BLECharacteristicMap::getByHandle`, same
keyed-map semantics with the handle as the key. -/
def BLECharacteristicMap.getByHandle (m : List (Nat × Nat)) (h : Nat) : Option Nat :=
  BLECharacteristicMap.getByUUID m h

/-- Modelled from the spec: `BLECharacteristicMap::setByHandle`. -/
def BLECharacteristicMap.setByHandle (m : List (Nat × Nat)) (h : Nat) (c : Nat) :
    List (Nat × Nat) :=
  BLECharacteristicMap.setByUUID m h c

/-- `BLEService::BLEService(uuid)`: handle 0, gatts_if 0, empty map, no
last-created characteristic, mutex free. -/
def BLEService.mkService (uuid : UUID) : BLEService :=
  ⟨uuid, 0, 0, 0, 0, [], [], none, false⟩

/-- `BLEService::getUUID`. -/
def BLEService.getUUID (s : BLEService) : UUID := s.m_uuid

/-- `BLEService::getHandle`. -/
def BLEService.getHandle (s : BLEService) : Nat := s.m_handle

/-- `BLEService::setHandle`. -/
def BLEService.setHandle (s : BLEService) (h : Nat) : BLEService :=
  { s with m_handle := h }

/-- `BLEService::getCharacteristic(uuid)`. -/
def BLEService.getCharacteristic (s : BLEService) (u : UUID) : Option CharId :=
  BLECharacteristicMap.getByUUID s.charMapByUUID u

/-- `BLEService::getLastCreatedCharacteristic`. -/
def BLEService.getLastCreatedCharacteristic (s : BLEService) : Option CharId :=
  s.m_lastCreatedCharacteristic

/-- `BLEService::addCharacteristic(pCharacteristic)` (BLEService.cpp lines
144-165).  `cuuid` is the added characteristic's `getUUID()` and `cid` its
pointer identity.  A duplicate UUID is logged and the call returns without
touching the map. -/
def BLEService.addCharacteristic (s : BLEService) (cuuid : UUID) (cid : CharId) :
    BLEService :=
  if (BLECharacteristicMap.getByUUID s.charMapByUUID cuuid).isSome then s
  else { s with charMapByUUID := BLECharacteristicMap.setByUUID s.charMapByUUID cuuid cid }

/-- The blocking-mutex and vendor-stack operations `BLEService::executeCreate`
performs, in program order. -/
inductive SvcAction where
  | takeMutex
  | giveMutex
  | createService (gatts_if : Nat) (uuid : UUID) (numHandles : Nat)
deriving DecidableEq

/-- `BLEService::executeCreate(gatts_if)` (BLEService.cpp lines 47-60):
record the interface, fill `m_srvc_id`, take the serialization mutex, then
call `esp_ble_gatts_create_service(gatts_if, srvc_id, 10)`.  `errRc` is the
return code the stack gives that call; a non-OK code is only logged before
the early return, so the resulting state and emitted actions are the same
in both cases, and no `giveMutex` ever appears. -/
def BLEService.executeCreate (s : BLEService) (gatts_if : Nat) (_errRc : Nat) :
    BLEService × List SvcAction :=
  let s1 := { s with m_gatts_if := gatts_if, m_srvc_id_inst := 0,
                     m_srvc_id_uuid := s.m_uuid, mutexHeld := true }
  (s1, [SvcAction.takeMutex, SvcAction.createService gatts_if s.m_uuid 10])

/-- Result of delivering one event to a service: the new service state, the
`setHandle` calls issued on characteristic objects (pointer identity and
handle), and whether the event was forwarded to the characteristic map. -/
structure ServiceEventOutcome where
  service : BLEService
  setHandleCalls : List (CharId × Nat)
  forwarded : Bool
deriving DecidableEq

/-- `BLEService::handleGATTServerEvent` (BLEService.cpp lines 168-228).
The `ESP_GATTS_ADD_CHAR_EVT` case has no `break` after its `if` block: when
the event's service handle does not match, control falls through into the
`ESP_GATTS_CREATE_EVT` case, which reads the event union type-confused as a
create event.  With ESP-IDF's packed `esp_bt_uuid_t` / `esp_gatt_id_t` /
`esp_gatt_srvc_id_t`, `create.service_id` sits at offset 6 of the union, so
the uuid the fallen-through guard compares takes its `len` field from
`add_char.service_handle` and its value bytes from `add_char.char_uuid.len`
onward — a byte-level overlay below this embedding's abstraction of UUIDs
as opaque identifiers (and below the excerpt: `BLEUUID`'s byte layout and
`equals` are not in it).  The fallen-through branch is therefore embedded
as leaving the service unchanged, which is faithful whenever that
type-confused comparison is false — in particular for every event whose
`service_handle` differs from the service UUID's `len` — and no theorem in
this file is stated about the fallen-through branch (claim C4 is recorded
as not statable at this abstraction).  Line 227 forwards every event to
`m_characteristicMap` unconditionally. -/
def BLEService.handleGATTServerEvent (s : BLEService) (ev : GattsEvent) :
    ServiceEventOutcome :=
  match ev with
  | .addChar _status attr_handle service_handle char_uuid =>
    if s.m_handle = service_handle then
      match BLECharacteristicMap.getByUUID s.charMapByUUID char_uuid with
      | none => ⟨{ s with mutexHeld := false }, [], true⟩
      | some cid =>
        ⟨{ s with
            charMapByHandle := BLECharacteristicMap.setByHandle s.charMapByHandle attr_handle cid,
            mutexHeld := false }, [(cid, attr_handle)], true⟩
    else ⟨s, [], true⟩
  | .createEvt _status service_handle service_uuid =>
    if s.m_uuid = service_uuid then
      ⟨{ s with m_handle := service_handle, mutexHeld := false }, [], true⟩
    else ⟨s, [], true⟩
  | _ => ⟨s, [], true⟩

/-- Specification-side characterization used by the amended claim C3: the
handle a fully-qualifying descriptor-added event leaves behind.  `U` is the
descriptor's UUID, `cid` its owning characteristic's identity and `sv` that
characteristic's service; any other event leaves the handle alone. -/
def qualifyingStep (U : UUID) (cid : CharId) (sv : BLEService) (h : Nat) :
    GattsEvent → Nat
  | .addCharDescr _ ah sh u =>
    if U = u ∧ sv.m_handle = sh ∧ sv.m_lastCreatedCharacteristic = some cid then ah else h
  | _ => h

/-- A stack oracle whose every `send_response` call reports `ESP_GATT_OK`. -/
def zeroStack : SendResponse → Nat := fun _ => 0

/-- A world that resolves no pointer at all. -/
def emptyWorld : GattWorld := ⟨fun _ => none, fun _ => none⟩

/-- A service with handle 5 whose most-recently-created characteristic is
the object with identity 2. -/
def svcS : BLEService := ⟨99, 5, 0, 0, 0, [(11, 1), (12, 2)], [], some 2, false⟩

/-- A world with `svcS` at identity 0 and two of its characteristics:
identity 1 (UUID 11) and identity 2 (UUID 12). -/
def twoDescrWorld : GattWorld :=
  ⟨fun i => if i = 1 then some ⟨11, 0⟩ else if i = 2 then some ⟨12, 0⟩ else none,
   fun i => if i = 0 then some svcS else none⟩

/-- A descriptor with UUID 20 owned by characteristic 1 of `svcS`. -/
def descrD1 : BLEDescriptor :=
  { BLEDescriptor.mkDescriptor 20 with m_pCharacteristic := some 1 }

/-- A descriptor with the same UUID 20, owned by characteristic 2 of `svcS`
(the most-recently-created one). -/
def descrD2 : BLEDescriptor :=
  { BLEDescriptor.mkDescriptor 20 with m_pCharacteristic := some 2 }

/-- A descriptor with an assigned handle 3. -/
def descrAssigned : BLEDescriptor :=
  { BLEDescriptor.mkDescriptor 9 with m_handle := 3 }

/-- A freshly constructed descriptor (handle 0). -/
def descrUnassigned : BLEDescriptor := BLEDescriptor.mkDescriptor 5

/-- A descriptor with no owning characteristic recorded. -/
def descrNoOwner : BLEDescriptor := BLEDescriptor.mkDescriptor 6

/-- A service with handle 6 containing one characteristic (UUID 30,
identity 9), holding the serialization mutex. -/
def svcWithChar : BLEService := ⟨50, 6, 0, 0, 0, [(30, 9)], [], none, true⟩

theorem getByUUID_setByUUID_self (m : List (Nat × Nat)) (k v : Nat) :
    BLECharacteristicMap.getByUUID (BLECharacteristicMap.setByUUID m k v) k = some v := by
  induction m with
  | nil => simp [BLECharacteristicMap.setByUUID, BLECharacteristicMap.getByUUID]
  | cons p rest ih =>
    obtain ⟨a, b⟩ := p
    by_cases hk : a = k
    · simp [BLECharacteristicMap.setByUUID, BLECharacteristicMap.getByUUID, hk]
    · simp [BLECharacteristicMap.setByUUID, BLECharacteristicMap.getByUUID, hk, ih]

theorem getByUUID_none_not_mem (m : List (Nat × Nat)) (k : Nat)
    (h : BLECharacteristicMap.getByUUID m k = none) : k ∉ m.map Prod.fst := by
  induction m with
  | nil => simp
  | cons p rest ih =>
    obtain ⟨a, b⟩ := p
    by_cases hk : a = k
    · simp [BLECharacteristicMap.getByUUID, hk] at h
    · simp [BLECharacteristicMap.getByUUID, hk] at h
      simpa [hk, Ne.symm hk] using ih h

theorem setByUUID_of_getByUUID_none (m : List (Nat × Nat)) (k v : Nat)
    (h : BLECharacteristicMap.getByUUID m k = none) :
    BLECharacteristicMap.setByUUID m k v = m ++ [(k, v)] := by
  induction m with
  | nil => simp [BLECharacteristicMap.setByUUID]
  | cons p rest ih =>
    obtain ⟨a, b⟩ := p
    by_cases hk : a = k
    · simp [BLECharacteristicMap.getByUUID, hk] at h
    · simp [BLECharacteristicMap.getByUUID, hk] at h
      simp [BLECharacteristicMap.setByUUID, hk, ih h]

/-- Claim C2: for every descriptor and byte sequence, `setValue` with length
at most `ESP_GATT_MAX_ATTR_LEN` makes `getLength()` return that length and
the value (the first `getLength()` bytes of `getValue()`) equal the written
bytes; `setValue` with a larger length leaves the descriptor, hence both the
buffer contents and the stored length, completely unchanged. -/
theorem setValue_length_bounded (d : BLEDescriptor) (data : List Nat) :
    (data.length ≤ ESP_GATT_MAX_ATTR_LEN →
      (d.setValue data).getLength = data.length ∧
      (d.setValue data).getValue.take data.length = data) ∧
    (ESP_GATT_MAX_ATTR_LEN < data.length → d.setValue data = d) := by
  constructor
  · intro h
    have hng : ¬ data.length > ESP_GATT_MAX_ATTR_LEN := not_lt.mpr h
    simp [BLEDescriptor.setValue, hng, BLEDescriptor.getLength, BLEDescriptor.getValue,
      List.take_left]
  · intro h
    simp [BLEDescriptor.setValue, h]

theorem setValue_length_bounded_witness :
    ((BLEDescriptor.mkDescriptor 7).setValue [1, 2]).getLength = 2 ∧
    ((BLEDescriptor.mkDescriptor 7).setValue [1, 2]).getValue.take 2 = [1, 2] ∧
    (BLEDescriptor.mkDescriptor 7).setValue (List.replicate 601 3) =
      BLEDescriptor.mkDescriptor 7 :=
  ⟨((setValue_length_bounded (BLEDescriptor.mkDescriptor 7) [1, 2]).1 (by decide)).1,
   ((setValue_length_bounded (BLEDescriptor.mkDescriptor 7) [1, 2]).1 (by decide)).2,
   (setValue_length_bounded (BLEDescriptor.mkDescriptor 7) (List.replicate 601 3)).2
     (by norm_num [ESP_GATT_MAX_ATTR_LEN])⟩

/-- Claim C10: for a descriptor whose owning-characteristic reference is
unset (`m_pCharacteristic = none`, as after construction), delivering a
descriptor-added event succeeds (returns `some`, i.e. never dereferences the
null owning-characteristic reference — this holds even in a world resolving
no pointer at all) and leaves the descriptor, in particular its handle,
unchanged. -/
theorem addCharDescr_null_owner_safe (w : GattWorld) (g : Nat)
    (stack : SendResponse → Nat) (d : BLEDescriptor) (st ah sh : Nat) (u : UUID)
    (h : d.m_pCharacteristic = none) :
    BLEDescriptor.handleGATTServerEvent w g stack d (.addCharDescr st ah sh u) =
      some ⟨d, []⟩ := by
  simp [BLEDescriptor.handleGATTServerEvent, h]

theorem addCharDescr_null_owner_safe_witness :
    BLEDescriptor.handleGATTServerEvent emptyWorld 0 zeroStack descrNoOwner
      (.addCharDescr 0 1 2 6) = some ⟨descrNoOwner, []⟩ :=
  addCharDescr_null_owner_safe emptyWorld 0 zeroStack descrNoOwner 0 1 2 6 rfl

/-- Claim C8 (amended): for a descriptor whose handle is unassigned
(`getHandle() = 0`), delivering a read event whose handle field is non-zero
never triggers a response send, regardless of the connection, transaction,
offset, is-long and need-response fields (the original claim fails for an
event carrying handle 0, which the code matches against the unassigned
handle and answers). -/
theorem read_unassigned_nonzero_no_response (w : GattWorld) (g : Nat)
    (stack : SendResponse → Nat) (d : BLEDescriptor) (conn trans rh off : Nat)
    (il nr : Bool) (h0 : d.m_handle = 0) (hne : rh ≠ 0) :
    BLEDescriptor.handleGATTServerEvent w g stack d (.read conn trans rh off il nr) =
      some ⟨d, []⟩ := by
  simp [BLEDescriptor.handleGATTServerEvent, h0, hne]

theorem read_unassigned_nonzero_no_response_witness :
    BLEDescriptor.handleGATTServerEvent emptyWorld 0 zeroStack descrUnassigned
      (.read 3 4 7 0 false true) = some ⟨descrUnassigned, []⟩ :=
  read_unassigned_nonzero_no_response emptyWorld 0 zeroStack descrUnassigned
    3 4 7 0 false true rfl (by decide)

theorem read_unassigned_zero_handle_sends :
    descrUnassigned.getHandle = 0 ∧
    (BLEDescriptor.handleGATTServerEvent emptyWorld 0 zeroStack descrUnassigned
        (.read 3 4 0 0 false true)).map (fun o => o.sends.length) = some 1 := by
  decide

/-- Claim C6: for a descriptor with an assigned (non-zero) handle, a write
event whose handle equals the descriptor's handle and whose length is within
`ESP_GATT_MAX_ATTR_LEN` updates the value to the event's bytes and issues
exactly one `esp_ble_gatts_send_response` call with the event's connection
and transaction identifiers, status `ESP_GATT_OK`, echoing the new length,
the descriptor's handle, offset 0 and `ESP_GATT_AUTH_REQ_NONE`; the return
code of the send call (the `stack` oracle) is only logged and influences
neither the descriptor state nor the emitted call. -/
theorem write_matching_updates_and_responds (w : GattWorld) (g : Nat)
    (stack : SendResponse → Nat) (d : BLEDescriptor) (conn trans off : Nat)
    (nr ip : Bool) (val : List Nat)
    (_hnz : d.m_handle ≠ 0) (hlen : val.length ≤ ESP_GATT_MAX_ATTR_LEN) :
    BLEDescriptor.handleGATTServerEvent w g stack d
        (.write conn trans d.m_handle off nr ip val) =
      some ⟨d.setValue val,
        [⟨g, conn, trans, ESP_GATT_OK,
          ⟨val.length, d.m_handle, 0, ESP_GATT_AUTH_REQ_NONE, val⟩⟩]⟩ ∧
    (d.setValue val).getLength = val.length ∧
    (d.setValue val).getValue.take val.length = val ∧
    (∀ stack2 : SendResponse → Nat,
      BLEDescriptor.handleGATTServerEvent w g stack2 d
          (.write conn trans d.m_handle off nr ip val) =
        BLEDescriptor.handleGATTServerEvent w g stack d
          (.write conn trans d.m_handle off nr ip val)) := by
  have hng : ¬ val.length > ESP_GATT_MAX_ATTR_LEN := not_lt.mpr hlen
  refine ⟨?_, ?_, ?_, fun stack2 => rfl⟩
  · simp [BLEDescriptor.handleGATTServerEvent, BLEDescriptor.setValue, hng,
      BLEDescriptor.getLength, BLEDescriptor.getValue, List.take_left]
  · simp [BLEDescriptor.setValue, hng, BLEDescriptor.getLength]
  · simp [BLEDescriptor.setValue, hng, BLEDescriptor.getValue, List.take_left]

theorem write_matching_updates_and_responds_witness :
    BLEDescriptor.handleGATTServerEvent emptyWorld 0 zeroStack descrAssigned
        (.write 1 2 3 0 true false [5, 6]) =
      some ⟨descrAssigned.setValue [5, 6],
        [⟨0, 1, 2, ESP_GATT_OK, ⟨2, 3, 0, ESP_GATT_AUTH_REQ_NONE, [5, 6]⟩⟩]⟩ ∧
    (descrAssigned.setValue [5, 6]).getLength = 2 ∧
    (descrAssigned.setValue [5, 6]).getValue.take 2 = [5, 6] :=
  ⟨(write_matching_updates_and_responds emptyWorld 0 zeroStack descrAssigned
      1 2 0 true false [5, 6] (by decide) (by decide)).1,
   (write_matching_updates_and_responds emptyWorld 0 zeroStack descrAssigned
      1 2 0 true false [5, 6] (by decide) (by decide)).2.1,
   (write_matching_updates_and_responds emptyWorld 0 zeroStack descrAssigned
      1 2 0 true false [5, 6] (by decide) (by decide)).2.2.1⟩

/-- Claim C1: delivering a descriptor-added event assigns the event's
attribute handle to a descriptor exactly when all four conditions hold: an
owning characteristic is recorded, the event's characteristic UUID equals
the descriptor's UUID, the event's service handle equals the owning
characteristic's service's handle, and the owning characteristic is that
service's most-recently-created characteristic (first conjunct: the
outcome, with the four-way condition as the `if` guard; second conjunct: no
owning characteristic means no assignment).  Third conjunct, the concrete
disambiguation scenario: of two descriptors with the same UUID 20 under two
characteristics (identities 1 and 2) of the same service `svcS` whose
most-recently-created characteristic is 2, the same event hands handle 41
to `descrD2` only, while `descrD1`'s handle remains 0. -/
theorem descrAdd_four_way_guard :
    (∀ (w : GattWorld) (g : Nat) (stack : SendResponse → Nat) (d : BLEDescriptor)
        (cid : CharId) (ch : BLECharacteristic) (sv : BLEService) (st ah sh : Nat)
        (u : UUID),
      d.m_pCharacteristic = some cid → w.chars cid = some ch →
      w.services ch.m_pService = some sv →
      BLEDescriptor.handleGATTServerEvent w g stack d (.addCharDescr st ah sh u) =
        some ⟨if d.m_bleUUID = u ∧ sv.m_handle = sh ∧
                 sv.m_lastCreatedCharacteristic = some cid
              then { d with m_handle := ah } else d, []⟩) ∧
    (∀ (w : GattWorld) (g : Nat) (stack : SendResponse → Nat) (d : BLEDescriptor)
        (st ah sh : Nat) (u : UUID),
      d.m_pCharacteristic = none →
      BLEDescriptor.handleGATTServerEvent w g stack d (.addCharDescr st ah sh u) =
        some ⟨d, []⟩) ∧
    (twoDescrWorld.chars 1 = some ⟨11, 0⟩ ∧ twoDescrWorld.chars 2 = some ⟨12, 0⟩ ∧
     twoDescrWorld.services 0 = some svcS ∧ svcS.m_lastCreatedCharacteristic = some 2 ∧
     descrD1.m_pCharacteristic = some 1 ∧ descrD2.m_pCharacteristic = some 2 ∧
     descrD1.m_bleUUID = 20 ∧ descrD2.m_bleUUID = 20 ∧
     descrD1.getHandle = 0 ∧ descrD2.getHandle = 0 ∧
     (BLEDescriptor.handleGATTServerEvent twoDescrWorld 0 zeroStack descrD2
        (.addCharDescr 0 41 5 20)).map (fun o => o.descr.getHandle) = some 41 ∧
     (BLEDescriptor.handleGATTServerEvent twoDescrWorld 0 zeroStack descrD1
        (.addCharDescr 0 41 5 20)).map (fun o => o.descr.getHandle) = some 0) := by
  refine ⟨?_, ?_, by decide⟩
  · intro w g stack d cid ch sv st ah sh u hc hch hsv
    by_cases hu : d.m_bleUUID = u
    · by_cases hh : sv.m_handle = sh
      · by_cases hl : sv.m_lastCreatedCharacteristic = some cid
        · simp [BLEDescriptor.handleGATTServerEvent, hc, hch, hsv, hu, hh, hl,
            BLEDescriptor.setHandle]
        · simp [BLEDescriptor.handleGATTServerEvent, hc, hch, hsv, hu, hh, hl]
      · simp [BLEDescriptor.handleGATTServerEvent, hc, hch, hsv, hu, hh]
    · simp [BLEDescriptor.handleGATTServerEvent, hc, hch, hsv, hu]
  · intro w g stack d st ah sh u hc
    simp [BLEDescriptor.handleGATTServerEvent, hc]

set_option maxRecDepth 8000 in
theorem descrAdd_four_way_guard_witness :
    BLEDescriptor.handleGATTServerEvent twoDescrWorld 0 zeroStack descrD2
        (.addCharDescr 0 41 5 20) =
      some ⟨{ descrD2 with m_handle := 41 }, []⟩ :=
  (descrAdd_four_way_guard.1 twoDescrWorld 0 zeroStack descrD2 2 ⟨12, 0⟩ svcS
      0 41 5 20 rfl rfl rfl).trans (by decide)

theorem descr_step_handle (w : GattWorld) (g : Nat) (stack : SendResponse → Nat)
    (d : BLEDescriptor) (ev : GattsEvent) (cid : CharId) (ch : BLECharacteristic)
    (sv : BLEService) (hc : d.m_pCharacteristic = some cid)
    (hch : w.chars cid = some ch) (hsv : w.services ch.m_pService = some sv) :
    ∃ out, BLEDescriptor.handleGATTServerEvent w g stack d ev = some out ∧
      out.descr.m_handle = qualifyingStep d.m_bleUUID cid sv d.m_handle ev ∧
      out.descr.m_bleUUID = d.m_bleUUID ∧
      out.descr.m_pCharacteristic = d.m_pCharacteristic := by
  cases ev with
  | addCharDescr st ah sh u =>
    by_cases hu : d.m_bleUUID = u
    · by_cases hh : sv.m_handle = sh
      · by_cases hl : sv.m_lastCreatedCharacteristic = some cid
        · exact ⟨⟨d.setHandle ah, []⟩,
            by simp [BLEDescriptor.handleGATTServerEvent, hc, hch, hsv, hu, hh, hl],
            by simp [BLEDescriptor.setHandle, qualifyingStep, hu, hh, hl],
            by simp [BLEDescriptor.setHandle], by simp [BLEDescriptor.setHandle]⟩
        · exact ⟨⟨d, []⟩,
            by simp [BLEDescriptor.handleGATTServerEvent, hc, hch, hsv, hu, hh, hl],
            by simp [qualifyingStep, hl], rfl, rfl⟩
      · exact ⟨⟨d, []⟩,
          by simp [BLEDescriptor.handleGATTServerEvent, hc, hch, hsv, hu, hh],
          by simp [qualifyingStep, hh], rfl, rfl⟩
    · exact ⟨⟨d, []⟩,
        by simp [BLEDescriptor.handleGATTServerEvent, hc, hch, hsv, hu],
        by simp [qualifyingStep, hu], rfl, rfl⟩
  | write conn trans h off nr ip val =>
    by_cases hm : h = d.m_handle
    · refine ⟨⟨d.setValue val,
        [⟨g, conn, trans, ESP_GATT_OK,
          ⟨(d.setValue val).getLength, d.m_handle, 0, ESP_GATT_AUTH_REQ_NONE,
           (d.setValue val).getValue.take (d.setValue val).getLength⟩⟩]⟩,
        by simp [BLEDescriptor.handleGATTServerEvent, hm], ?_, ?_, ?_⟩ <;>
        simp only [BLEDescriptor.setValue, qualifyingStep] <;> split <;> rfl
    · exact ⟨⟨d, []⟩, by simp [BLEDescriptor.handleGATTServerEvent, hm],
        by simp [qualifyingStep], rfl, rfl⟩
  | read conn trans h off il nr =>
    by_cases hm : h = d.m_handle
    · by_cases hr : nr
      · exact ⟨⟨d,
          [⟨g, conn, trans, ESP_GATT_OK,
            ⟨d.getLength, h, 0, ESP_GATT_AUTH_REQ_NONE,
             d.getValue.take d.getLength⟩⟩]⟩,
          by simp [BLEDescriptor.handleGATTServerEvent, hm, hr],
          by simp [qualifyingStep], rfl, rfl⟩
      · exact ⟨⟨d, []⟩, by simp [BLEDescriptor.handleGATTServerEvent, hm, hr],
          by simp [qualifyingStep], rfl, rfl⟩
    · exact ⟨⟨d, []⟩, by simp [BLEDescriptor.handleGATTServerEvent, hm],
        by simp [qualifyingStep], rfl, rfl⟩
  | addChar st ah sh u =>
    exact ⟨⟨d, []⟩, by simp [BLEDescriptor.handleGATTServerEvent],
      by simp [qualifyingStep], rfl, rfl⟩
  | createEvt st sh u =>
    exact ⟨⟨d, []⟩, by simp [BLEDescriptor.handleGATTServerEvent],
      by simp [qualifyingStep], rfl, rfl⟩
  | other =>
    exact ⟨⟨d, []⟩, by simp [BLEDescriptor.handleGATTServerEvent],
      by simp [qualifyingStep], rfl, rfl⟩

/-- Claim C3 (amended): a freshly constructed descriptor has handle 0, and
over any delivered event sequence the handle evolves exactly by
`qualifyingStep`: it stays unchanged on every event except a
fully-qualifying descriptor-added event, each of which (re)assigns it to
that event's attribute handle.  In particular it is 0 until the first
fully-qualifying event, but a later fully-qualifying event can reassign a
non-zero handle (the original "never changes again" fails, see the
counterexample). -/
theorem descr_handle_evolution (w : GattWorld) (g : Nat) (stack : SendResponse → Nat)
    (d : BLEDescriptor) (cid : CharId) (ch : BLECharacteristic) (sv : BLEService)
    (hc : d.m_pCharacteristic = some cid) (hch : w.chars cid = some ch)
    (hsv : w.services ch.m_pService = some sv) (evs : List GattsEvent) :
    (∀ u0, (BLEDescriptor.mkDescriptor u0).getHandle = 0) ∧
    ∃ d2, BLEDescriptor.runEvents w g stack d evs = some d2 ∧
      d2.getHandle = evs.foldl (qualifyingStep d.m_bleUUID cid sv) d.m_handle := by
  refine ⟨fun u0 => rfl, ?_⟩
  induction evs generalizing d with
  | nil => exact ⟨d, rfl, rfl⟩
  | cons ev rest ih =>
    obtain ⟨out, hout, hh, hu, hp⟩ := descr_step_handle w g stack d ev cid ch sv hc hch hsv
    have hc2 : out.descr.m_pCharacteristic = some cid := hp.trans hc
    obtain ⟨d2, h1, h2⟩ := ih out.descr hc2
    refine ⟨d2, ?_, ?_⟩
    · simpa [BLEDescriptor.runEvents, hout] using h1
    · rw [h2, List.foldl_cons, hu, hh]

set_option maxRecDepth 8000 in
theorem descr_handle_evolution_witness :
    (∀ u0, (BLEDescriptor.mkDescriptor u0).getHandle = 0) ∧
    ∃ d2, BLEDescriptor.runEvents twoDescrWorld 0 zeroStack descrD2
        [.addCharDescr 0 9 5 20, .addCharDescr 0 7 5 20] = some d2 ∧
      d2.getHandle = [GattsEvent.addCharDescr 0 9 5 20,
        GattsEvent.addCharDescr 0 7 5 20].foldl
          (qualifyingStep descrD2.m_bleUUID 2 svcS) descrD2.m_handle :=
  descr_handle_evolution twoDescrWorld 0 zeroStack descrD2 2 ⟨12, 0⟩ svcS
    rfl rfl rfl [.addCharDescr 0 9 5 20, .addCharDescr 0 7 5 20]

set_option maxRecDepth 8000 in
theorem descr_handle_reassigned_counterexample :
    descrD2.getHandle = 0 ∧
    (BLEDescriptor.runEvents twoDescrWorld 0 zeroStack descrD2
        [.addCharDescr 0 9 5 20]).map BLEDescriptor.getHandle = some 9 ∧
    (BLEDescriptor.runEvents twoDescrWorld 0 zeroStack descrD2
        [.addCharDescr 0 9 5 20, .addCharDescr 0 7 5 20]).map
      BLEDescriptor.getHandle = some 7 := by
  decide

/-- Claim C5: for a characteristic-added event whose service handle equals
this service's handle: if no characteristic with the event's UUID is in the
UUID-keyed map, the handler only releases the serialization mutex (no map
entry, no `setHandle` call, event still forwarded); if such a characteristic
`cid` exists, the handler issues exactly the call `setHandle(cid, attr)`,
adds the handle-keyed map entry — making `cid` retrievable by
`getByHandle` — releases the mutex, and forwards the event. -/
theorem addChar_matching_behavior (s : BLEService) (st ah : Nat) (u : UUID) :
    (BLECharacteristicMap.getByUUID s.charMapByUUID u = none →
      BLEService.handleGATTServerEvent s (.addChar st ah s.m_handle u) =
        ⟨{ s with mutexHeld := false }, [], true⟩) ∧
    (∀ cid, BLECharacteristicMap.getByUUID s.charMapByUUID u = some cid →
      BLEService.handleGATTServerEvent s (.addChar st ah s.m_handle u) =
        ⟨{ s with
            charMapByHandle :=
              BLECharacteristicMap.setByHandle s.charMapByHandle ah cid,
            mutexHeld := false }, [(cid, ah)], true⟩ ∧
      BLECharacteristicMap.getByHandle
        (BLECharacteristicMap.setByHandle s.charMapByHandle ah cid) ah = some cid) := by
  constructor
  · intro h
    simp [BLEService.handleGATTServerEvent, h]
  · intro cid h
    exact ⟨by simp [BLEService.handleGATTServerEvent, h],
      getByUUID_setByUUID_self s.charMapByHandle ah cid⟩

theorem addChar_matching_behavior_witness :
    BLEService.handleGATTServerEvent svcWithChar (.addChar 0 70 6 30) =
      ⟨{ svcWithChar with charMapByHandle := [(70, 9)], mutexHeld := false },
        [(9, 70)], true⟩ ∧
    BLECharacteristicMap.getByHandle [(70, 9)] 70 = some 9 ∧
    BLEService.handleGATTServerEvent svcWithChar (.addChar 0 71 6 31) =
      ⟨{ svcWithChar with mutexHeld := false }, [], true⟩ :=
  ⟨((addChar_matching_behavior svcWithChar 0 70 30).2 9 rfl).1,
   ((addChar_matching_behavior svcWithChar 0 70 30).2 9 rfl).2,
   (addChar_matching_behavior svcWithChar 0 71 31).1 rfl⟩

/-- Claim C7: adding a characteristic whose UUID already has an entry in the
service's UUID-keyed map is a complete no-op — the service (hence the map
and its size) is unchanged and the originally stored characteristic is still
the one `getCharacteristic` returns for that UUID — and `addCharacteristic`
preserves distinctness of the map's UUID keys, so a service never contains
two characteristics with the same UUID. -/
theorem addCharacteristic_duplicate_rejected (s : BLEService) (cuuid : UUID)
    (cid0 cid : CharId)
    (hdup : BLECharacteristicMap.getByUUID s.charMapByUUID cuuid = some cid0) :
    s.addCharacteristic cuuid cid = s ∧
    ((s.addCharacteristic cuuid cid).charMapByUUID).length = s.charMapByUUID.length ∧
    (s.addCharacteristic cuuid cid).getCharacteristic cuuid = some cid0 ∧
    (∀ (s2 : BLEService) (u2 : UUID) (c2 : CharId),
      (s2.charMapByUUID.map Prod.fst).Nodup →
      (((s2.addCharacteristic u2 c2).charMapByUUID).map Prod.fst).Nodup) := by
  have hno : s.addCharacteristic cuuid cid = s := by
    simp [BLEService.addCharacteristic, hdup]
  refine ⟨hno, by rw [hno], by rw [hno]; exact hdup, ?_⟩
  intro s2 u2 c2 hnd
  by_cases h2 : (BLECharacteristicMap.getByUUID s2.charMapByUUID u2).isSome
  · simpa [BLEService.addCharacteristic, h2] using hnd
  · have hnone : BLECharacteristicMap.getByUUID s2.charMapByUUID u2 = none := by
      cases hx : BLECharacteristicMap.getByUUID s2.charMapByUUID u2 with
      | none => rfl
      | some v => exact absurd (by simp [hx]) h2
    have hmem := getByUUID_none_not_mem s2.charMapByUUID u2 hnone
    simp [BLEService.addCharacteristic, h2,
      setByUUID_of_getByUUID_none s2.charMapByUUID u2 c2 hnone,
      List.nodup_append, hnd, hmem]

theorem addCharacteristic_duplicate_rejected_witness :
    svcWithChar.addCharacteristic 30 11 = svcWithChar ∧
    ((svcWithChar.addCharacteristic 30 11).charMapByUUID).length = 1 ∧
    (svcWithChar.addCharacteristic 30 11).getCharacteristic 30 = some 9 :=
  ⟨(addCharacteristic_duplicate_rejected svcWithChar 30 9 11 rfl).1,
   ((addCharacteristic_duplicate_rejected svcWithChar 30 9 11 rfl).2.1).trans rfl,
   (addCharacteristic_duplicate_rejected svcWithChar 30 9 11 rfl).2.2.1⟩

/-- Claim C9: `executeCreate` takes the serialization mutex and only then
issues the single `esp_ble_gatts_create_service` request (the emitted action
trace is exactly take-then-create, with no `giveMutex`), and for every stack
return code — OK or not — it returns with the mutex still held; the mutex is
released later by the service-created event whose UUID matches this
service's UUID (which also adopts the event's service handle). -/
theorem executeCreate_lock_discipline (s : BLEService) (g errRc : Nat) :
    (s.executeCreate g errRc).1.mutexHeld = true ∧
    (s.executeCreate g errRc).2 =
      [SvcAction.takeMutex, SvcAction.createService g s.m_uuid 10] ∧
    (∀ (s2 : BLEService) (st sh : Nat),
      (BLEService.handleGATTServerEvent s2 (.createEvt st sh s2.m_uuid)).service.mutexHeld
        = false ∧
      (BLEService.handleGATTServerEvent s2 (.createEvt st sh s2.m_uuid)).service.getHandle
        = sh) := by
  refine ⟨rfl, rfl, ?_⟩
  intro s2 st sh
  constructor <;> simp [BLEService.handleGATTServerEvent, BLEService.getHandle]

theorem executeCreate_lock_discipline_witness :
    (svcWithChar.executeCreate 4 1).1.mutexHeld = true ∧
    (svcWithChar.executeCreate 4 1).2 =
      [SvcAction.takeMutex, SvcAction.createService 4 50 10] ∧
    (BLEService.handleGATTServerEvent svcWithChar (.createEvt 0 33 50)).service.mutexHeld
      = false :=
  ⟨(executeCreate_lock_discipline svcWithChar 4 1).1,
   (executeCreate_lock_discipline svcWithChar 4 1).2.1,
   ((executeCreate_lock_discipline svcWithChar 4 1).2.2 svcWithChar 0 33).1⟩
